import Mathlib

/-!
# Verification of the streaming chat backend (`src/backend/main.py`)

Shallow embedding of the FastAPI/Ollama chat backend:

* `ConversationDB`, `MessageDB` — the two SQLAlchemy tables (`main.py` lines 28–48).
  Opaque uuid4 identifiers are modelled as naturals drawn from a fresh counter
  `DBState.nextId`; `datetime.utcnow()` readings are modelled by an ambient
  clock function `clock : Nat → Nat` sampled at a monotonically advancing
  tick counter `DBState.tick` (successive `utcnow` readings may coincide,
  which the model captures by a non-injective `clock`).
* `stream_ollama_response` — the upstream streaming generator (lines 82–105):
  each upstream line is either blank, JSON-malformed, JSON without a
  `"response"` key (as in an inline error record), or a `"response"` fragment;
  the stream either ends normally or an `httpx.HTTPError` is raised, which the
  generator catches and re-emits as a single literal error-text fragment.
* `chat_endpoint` / `generate_and_save` — the `/api/chat` turn (lines 135–210),
  including the `except Exception` handler that catches the 404
  `HTTPException` raised for an unknown conversation id and re-raises it as a
  500 whose detail is the `str()` of the original exception.
* `readBack` — the result relation of `/api/conversations/{id}/messages`
  (lines 233–252): SQL `ORDER BY timestamp` returns *some* permutation of the
  filtered rows that is sorted by timestamp; ties are not further constrained.
-/

/-- Row of the `conversations` table (`main.py` lines 28–36). -/
structure ConversationDB where
  id : Nat
  title : String
  created : Nat
  updated : Nat
deriving DecidableEq, Repr

/-- Row of the `messages` table (`main.py` lines 39–48). -/
structure MessageDB where
  id : Nat
  conversation_id : Nat
  role : String
  content : String
  timestamp : Nat
deriving DecidableEq, Repr

/-- The inbound request body (`main.py` lines 57–60).  The pydantic model
performs no content validation: any string (including the empty string) is
accepted as `message`, and `model` defaults to `"llama3.2"`. -/
structure ChatRequest where
  conversation_id : Option Nat
  message : String
  model : String
deriving DecidableEq, Repr

/-- The SQLite database state: both tables in row-insertion order, plus the
fresh-id counter and the clock tick counter of the model. -/
structure DBState where
  conversations : List ConversationDB
  messages : List MessageDB
  nextId : Nat
  tick : Nat
deriving DecidableEq, Repr

/-- The empty database (state after `Base.metadata.create_all`). -/
def emptyDB : DBState := ⟨[], [], 0, 0⟩

/-- One line of the upstream (Ollama) line-delimited response, as discriminated
by `stream_ollama_response` (lines 96–103): blank lines are skipped, lines that
fail `json.loads` are skipped, decoded records without a `"response"` key
(e.g. inline error records) are skipped, and `"response"` fragments are
yielded. -/
inductive UpLine where
  | blank
  | malformed
  | noResponseField
  | response (s : String)
deriving DecidableEq, Repr

/-- How the upstream interaction ends: either the line iterator is exhausted
normally, or an `httpx.HTTPError` is raised (connection refused, timeout,
non-2xx status from `raise_for_status`, protocol failure). -/
inductive UpEnd where
  | ok
  | httpError (msg : String)
deriving DecidableEq, Repr

/-- The behaviour of one upstream call: the lines delivered before the end,
and the way the interaction ends. -/
structure UpstreamBehavior where
  lines : List UpLine
  ending : UpEnd
deriving DecidableEq, Repr

/-- The fragment (if any) yielded for one upstream line (lines 96–103). -/
def lineFragment : UpLine → Option String
  | .response s => some s
  | _ => none

/-- The fragments yielded after the line loop: nothing on normal exhaustion;
on `httpx.HTTPError` the handler at lines 104–105 yields the literal error
text as one final fragment. -/
def endingFragments : UpEnd → List String
  | .ok => []
  | .httpError m => ["[Error connecting to Ollama: " ++ m ++ "]"]

/-- All fragments produced by one upstream interaction. -/
def fragmentsOf (up : UpstreamBehavior) : List String :=
  up.lines.filterMap lineFragment ++ endingFragments up.ending

/-- `stream_ollama_response(prompt, model)` (lines 82–105).  The prompt and
model are sent upstream; which lines come back is the environment's choice,
modelled by the `UpstreamBehavior` argument.  Note the function never raises:
every `httpx.HTTPError` is converted into an ordinary yielded fragment. -/
def stream_ollama_response (_prompt _model : String) (up : UpstreamBehavior) :
    List String :=
  fragmentsOf up

/-- Events written to the server-sent event stream.  `chunk` (line 183)
carries the fragment text and the conversation id; `done` (line 199) carries
only the new assistant message id.  The `error` kind is the third event kind
of the specification's event grammar (§4.5); it is included so that its
absence can be stated — no code path of `main.py` constructs it. -/
inductive Event where
  | chunk (content : String) (conversation_id : Nat)
  | done (message_id : Nat)
  | error (kind : String) (content : String)
deriving DecidableEq, Repr

/-- Insert a message row: fresh uuid, the current `utcnow` reading, appended
at the tail of the table (the `db.add`/`db.commit` pairs at lines 158–165 and
186–196). -/
def insertMessage (clock : Nat → Nat) (db : DBState) (cid : Nat)
    (role content : String) : DBState × MessageDB :=
  let m : MessageDB := ⟨db.nextId, cid, role, content, clock db.tick⟩
  ({ db with messages := db.messages ++ [m],
             nextId := db.nextId + 1, tick := db.tick + 1 }, m)

/-- Title of a fresh conversation (line 151):
`request.message[:50] + "..." if len(request.message) > 50 else request.message`.
The whole message is sliced; no first-line extraction happens. -/
def titleOf (message : String) : String :=
  if message.length > 50 then message.take 50 ++ "..." else message

/-- The rows of the `messages` table belonging to one conversation, in
insertion order (the `WHERE conversation_id = …` filter of lines 168–170 and
238–240). -/
def convMsgs (db : DBState) (cid : Nat) : List MessageDB :=
  db.messages.filter (fun m => m.conversation_id == cid)

/-- One line of the prompt context (line 173):
`f"{'User' if msg.role == 'user' else 'Assistant'}: {msg.content}"`. -/
def contextLine (m : MessageDB) : String :=
  (if m.role = "user" then "User" else "Assistant") ++ ": " ++ m.content

/-- Python's `"\n".join`, written recursively. -/
def joinNewline : List String → String
  | [] => ""
  | [s] => s
  | s :: rest => s ++ "\n" ++ joinNewline rest

/-- Context assembly (lines 172–175): join the labelled history lines with
newlines. -/
def buildContext (msgs : List MessageDB) : String :=
  joinNewline (msgs.map contextLine)

/-- The `generate_and_save` generator (lines 178–199): relay every fragment as
a `chunk` event tagged with the conversation id, then persist the
concatenation of all fragments (`"".join(full_response)`) as one assistant
message — whatever the fragments were, including none at all and including
the error-text fragment — and finally emit `done` with the new message id. -/
def generate_and_save (clock : Nat → Nat) (db : DBState) (cid : Nat)
    (prompt model : String) (up : UpstreamBehavior) : DBState × List Event :=
  let frags := stream_ollama_response prompt model up
  let chunkEvents := frags.map (fun c => Event.chunk c cid)
  let (db2, assistantMsg) := insertMessage clock db cid "assistant" (String.join frags)
  (db2, chunkEvents ++ [Event.done assistantMsg.id])

/-- An HTTP error response as produced by the endpoint's exception paths. -/
structure ErrResponse where
  status : Nat
  detail : String
deriving DecidableEq, Repr

/-- What the caller receives for an unknown conversation id: the
`HTTPException(404, "Conversation not found")` raised at line 147 is caught
by the blanket `except Exception` at line 206 and re-raised as
`HTTPException(500, str(e))`, and `str` of a starlette `HTTPException` is
`"{status_code}: {detail}"`. -/
def notFoundWrapped : ErrResponse :=
  { status := 500, detail := "404: Conversation not found" }

/-- Conversation resolution (lines 142–155): an explicit id is looked up and
its absence is an error; no id means a fresh conversation titled `titleOf`
of the message, with `created`/`updated` stamped now. -/
def resolveConversation (clock : Nat → Nat) (db : DBState) (req : ChatRequest) :
    Except ErrResponse (Nat × DBState) :=
  match req.conversation_id with
  | some cid =>
    match db.conversations.find? (fun c => c.id == cid) with
    | some conv => .ok (conv.id, db)
    | none => .error notFoundWrapped
  | none =>
    let conv : ConversationDB :=
      ⟨db.nextId, titleOf req.message, clock db.tick, clock db.tick⟩
    .ok (conv.id, { db with conversations := db.conversations ++ [conv],
                            nextId := db.nextId + 1, tick := db.tick + 1 })

/-- The `/api/chat` turn (lines 135–210): resolve or create the conversation
(no validation of the message or the model happens first), persist the user
message, assemble the context from the conversation's history, then run
`generate_and_save`.  The result pairs the final database state with either
the emitted event list or the error response. -/
def chat_endpoint (clock : Nat → Nat) (db : DBState) (req : ChatRequest)
    (up : UpstreamBehavior) : DBState × Except ErrResponse (List Event) :=
  match resolveConversation clock db req with
  | .error e => (db, .error e)
  | .ok (cid, db1) =>
    let (db2, _userMsg) := insertMessage clock db1 cid "user" req.message
    let context := buildContext (convMsgs db2 cid)
    let (db3, events) := generate_and_save clock db2 cid context req.model up
    (db3, .ok events)

/-- Result relation of `/api/conversations/{id}/messages` (lines 233–252):
SQL `ORDER BY timestamp` yields some permutation of the conversation's rows
that is non-decreasing in `timestamp`; the relative order of equal timestamps
is not specified by SQL. -/
abbrev readBack (db : DBState) (cid : Nat) (r : List MessageDB) : Prop :=
  r.Perm (convMsgs db cid) ∧
    List.Pairwise (fun a b => a.timestamp ≤ b.timestamp) r

/-- Whether an event is of the `error` kind. -/
def isErrorEvent : Event → Bool
  | .error _ _ => true
  | _ => false

/-- The conversation id carried by an event, if any: only `chunk` events
carry one (`done` carries only the message id, line 199). -/
def eventConversationId : Event → Option Nat
  | .chunk _ cid => some cid
  | _ => none

/-- The assistant messages of a conversation. -/
def assistantMessages (db : DBState) (cid : Nat) : List MessageDB :=
  db.messages.filter (fun m => m.conversation_id == cid && m.role == "assistant")

/-- Modelled from the spec (§4.4 step 2): a title derived from the *first
line* of the message, truncated to the 50-character bound with the ellipsis
marker if truncated.  Used only to compare the specified derivation with the
implemented `titleOf`. -/
def titleFromFirstLineSpec (message : String) : String :=
  let firstLine := String.mk (message.data.takeWhile (fun c => c ≠ '\n'))
  if firstLine.length > 50 then firstLine.take 50 ++ "..." else firstLine

/-- Two appends to the same conversation under a stalled clock: both rows get
timestamp `0` (`datetime.utcnow` has bounded resolution, so consecutive
inserts can share a timestamp). -/
def dbTie : DBState :=
  (insertMessage (fun _ => 0)
    ((insertMessage (fun _ => 0) emptyDB 0 "user" "x").1) 0 "assistant" "y").1

/-- Two appends to the same conversation under a strictly advancing clock:
timestamps `0` and `1`. -/
def dbSeq : DBState :=
  (insertMessage (fun n => n)
    ((insertMessage (fun n => n) emptyDB 0 "user" "x").1) 0 "assistant" "y").1

/-! ## General lemmas about the turn -/

/-- Once the conversation is resolved, a turn always runs to completion: the
user message and then the assistant message (the join of *all* fragments,
error text included, even when there are none) are appended, every fragment
is relayed as a `chunk`, and the stream ends with `done` naming the assistant
message id.  This is the common shape behind most claims. -/
theorem chat_endpoint_ok (clock : Nat → Nat) (db db1 : DBState)
    (req : ChatRequest) (up : UpstreamBehavior) (cid : Nat)
    (hres : resolveConversation clock db req = .ok (cid, db1)) :
    chat_endpoint clock db req up =
      ({ conversations := db1.conversations,
         messages := db1.messages ++
           [⟨db1.nextId, cid, "user", req.message, clock db1.tick⟩,
            ⟨db1.nextId + 1, cid, "assistant", String.join (fragmentsOf up),
              clock (db1.tick + 1)⟩],
         nextId := db1.nextId + 2, tick := db1.tick + 2 },
       .ok ((fragmentsOf up).map (fun c => Event.chunk c cid) ++
         [Event.done (db1.nextId + 1)])) := by
  unfold chat_endpoint
  rw [hres]
  simp [insertMessage, generate_and_save, stream_ollama_response, List.append_assoc]

/-- A request without a conversation id always resolves to a fresh
conversation. -/
theorem resolveConversation_none (clock : Nat → Nat) (db : DBState)
    (message model : String) :
    resolveConversation clock db ⟨none, message, model⟩ =
      .ok (db.nextId,
        { db with
            conversations := db.conversations ++
              [⟨db.nextId, titleOf message, clock db.tick, clock db.tick⟩],
            nextId := db.nextId + 1, tick := db.tick + 1 }) := rfl

/-- Full behaviour of a turn that starts a new conversation. -/
theorem chat_endpoint_newConv (clock : Nat → Nat) (db : DBState)
    (message model : String) (up : UpstreamBehavior) :
    chat_endpoint clock db ⟨none, message, model⟩ up =
      ({ conversations := db.conversations ++
           [⟨db.nextId, titleOf message, clock db.tick, clock db.tick⟩],
         messages := db.messages ++
           [⟨db.nextId + 1, db.nextId, "user", message, clock (db.tick + 1)⟩,
            ⟨db.nextId + 2, db.nextId, "assistant", String.join (fragmentsOf up),
              clock (db.tick + 2)⟩],
         nextId := db.nextId + 3, tick := db.tick + 3 },
       .ok ((fragmentsOf up).map (fun c => Event.chunk c db.nextId) ++
         [Event.done (db.nextId + 2)])) := by
  have h := chat_endpoint_ok clock db
    { db with
        conversations := db.conversations ++
          [⟨db.nextId, titleOf message, clock db.tick, clock db.tick⟩],
        nextId := db.nextId + 1, tick := db.tick + 1 }
    ⟨none, message, model⟩ up db.nextId rfl
  simp only [Nat.add_assoc] at h
  exact h

/-- The event stream a turn actually emits never contains an `error` event:
it is chunks followed by one `done`. -/
theorem filter_isErrorEvent_chunks_done (l : List String) (cid k : Nat) :
    ((l.map (fun c => Event.chunk c cid)) ++ [Event.done k]).filter isErrorEvent
      = [] := by
  simp [isErrorEvent]

/-- Only `chunk` events carry the conversation id: the ids recoverable from a
turn's event stream are one copy per fragment, and none otherwise. -/
theorem filterMap_conversationId_chunks_done (l : List String) (cid k : Nat) :
    ((l.map (fun c => Event.chunk c cid)) ++
        [Event.done k]).filterMap eventConversationId
      = l.map (fun _ => cid) := by
  induction l with
  | nil => rfl
  | cons x xs ih =>
    simp only [List.map_cons, List.cons_append, List.filterMap_cons]
    rw [ih]
    rfl

/-- `"\n".join` over a list extended on the right. -/
theorem joinNewline_append_singleton (l : List String) (s : String)
    (h : l ≠ []) :
    joinNewline (l ++ [s]) = joinNewline l ++ "\n" ++ s := by
  induction l with
  | nil => exact absurd rfl h
  | cons x xs ih =>
    cases xs with
    | nil => simp [joinNewline]
    | cons y ys =>
      have ih' := ih (by simp)
      simp only [List.cons_append] at ih' ⊢
      simp only [joinNewline] at ih' ⊢
      rw [ih']
      simp [String.append_assoc]

/-! ## C1 — upstream failure handling -/

/-- C1 (counterexample): the claim "a turn whose upstream client fails emits
an `error` event, persists no assistant message, and leaves exactly one new
user message" is false of the code.  On a connection failure the error text
is yielded as an ordinary fragment (`main.py` line 105), so the turn relays
it as a `chunk`, persists an assistant message containing the error text, and
ends with `done` — no `error` event, and one new assistant message. -/
theorem C1_counterexample :
    chat_endpoint (fun _ => 0) emptyDB ⟨none, "hello", "llama3.2"⟩
        ⟨[], .httpError "refused"⟩ =
      (⟨[⟨0, "hello", 0, 0⟩],
        [⟨1, 0, "user", "hello", 0⟩,
         ⟨2, 0, "assistant", "[Error connecting to Ollama: refused]", 0⟩],
        3, 3⟩,
       .ok [Event.chunk "[Error connecting to Ollama: refused]" 0,
            Event.done 2]) ∧
    ([Event.chunk "[Error connecting to Ollama: refused]" 0,
      Event.done 2].filter isErrorEvent = []) ∧
    assistantMessages
      ⟨[⟨0, "hello", 0, 0⟩],
       [⟨1, 0, "user", "hello", 0⟩,
        ⟨2, 0, "assistant", "[Error connecting to Ollama: refused]", 0⟩],
       3, 3⟩ 0 =
      [⟨2, 0, "assistant", "[Error connecting to Ollama: refused]", 0⟩] :=
  ⟨rfl, rfl, rfl⟩

/-- C1 (amended): when the upstream client fails with an `httpx.HTTPError`
(connection refused, timeout, bad status), the turn does *not* emit an
`error` event; it appends the literal error text as the final fragment,
relays every fragment as a `chunk`, persists one new user message *and* one
new assistant message whose content is the join of all fragments (error text
included), and terminates with `done`. -/
theorem C1_amended (clock : Nat → Nat) (db db1 : DBState) (req : ChatRequest)
    (up : UpstreamBehavior) (cid : Nat) (e : String)
    (hres : resolveConversation clock db req = .ok (cid, db1))
    (hend : up.ending = .httpError e) :
    chat_endpoint clock db req up =
      ({ conversations := db1.conversations,
         messages := db1.messages ++
           [⟨db1.nextId, cid, "user", req.message, clock db1.tick⟩,
            ⟨db1.nextId + 1, cid, "assistant", String.join (fragmentsOf up),
              clock (db1.tick + 1)⟩],
         nextId := db1.nextId + 2, tick := db1.tick + 2 },
       .ok ((fragmentsOf up).map (fun c => Event.chunk c cid) ++
         [Event.done (db1.nextId + 1)])) ∧
    ((fragmentsOf up).map (fun c => Event.chunk c cid) ++
      [Event.done (db1.nextId + 1)]).filter isErrorEvent = [] ∧
    fragmentsOf up = up.lines.filterMap lineFragment ++
      ["[Error connecting to Ollama: " ++ e ++ "]"] := by
  refine ⟨chat_endpoint_ok clock db db1 req up cid hres,
    filter_isErrorEvent_chunks_done _ _ _, ?_⟩
  simp [fragmentsOf, hend, endingFragments]

/-- C1 witness: the amended behaviour at a concrete failed turn. -/
theorem C1_amended_witness :
    chat_endpoint (fun _ => 0) emptyDB ⟨none, "hi", "m"⟩
        ⟨[], .httpError "down"⟩ =
      (⟨[⟨0, "hi", 0, 0⟩],
        [⟨1, 0, "user", "hi", 0⟩,
         ⟨2, 0, "assistant", "[Error connecting to Ollama: down]", 0⟩],
        3, 3⟩,
       .ok [Event.chunk "[Error connecting to Ollama: down]" 0,
            Event.done 2]) ∧
    ([Event.chunk "[Error connecting to Ollama: down]" 0,
      Event.done 2].filter isErrorEvent = []) ∧
    fragmentsOf ⟨[], .httpError "down"⟩ =
      [] ++ ["[Error connecting to Ollama: " ++ "down" ++ "]"] :=
  C1_amended (fun _ => 0) emptyDB ⟨[⟨0, "hi", 0, 0⟩], [], 1, 1⟩
    ⟨none, "hi", "m"⟩ ⟨[], .httpError "down"⟩ 0 "down" rfl rfl

/-! ## C2 — zero-fragment turns -/

/-- C2 (counterexample): the claim "a turn whose upstream stream yields zero
fragments is reported as a failure, with no `done` event and no empty
assistant message persisted" is false of the code.  With every upstream
record malformed, `full_response` stays empty, yet the turn persists an
assistant message with content `""` and emits `done` naming it. -/
theorem C2_counterexample :
    chat_endpoint (fun _ => 0) emptyDB ⟨none, "hi", "llama3.2"⟩
        ⟨[.malformed, .malformed], .ok⟩ =
      (⟨[⟨0, "hi", 0, 0⟩],
        [⟨1, 0, "user", "hi", 0⟩, ⟨2, 0, "assistant", "", 0⟩],
        3, 3⟩,
       .ok [Event.done 2]) ∧
    assistantMessages
      ⟨[⟨0, "hi", 0, 0⟩],
       [⟨1, 0, "user", "hi", 0⟩, ⟨2, 0, "assistant", "", 0⟩], 3, 3⟩ 0 =
      [⟨2, 0, "assistant", "", 0⟩] ∧
    ([Event.done 2].filter isErrorEvent = []) :=
  ⟨rfl, rfl, rfl⟩

/-- C2 (amended): a turn whose upstream stream yields zero fragments is
reported as a *success*: the event stream is exactly `[done]`, and an
assistant message with empty content is persisted. -/
theorem C2_amended (clock : Nat → Nat) (db db1 : DBState) (req : ChatRequest)
    (up : UpstreamBehavior) (cid : Nat)
    (hres : resolveConversation clock db req = .ok (cid, db1))
    (hfr : fragmentsOf up = []) :
    chat_endpoint clock db req up =
      ({ conversations := db1.conversations,
         messages := db1.messages ++
           [⟨db1.nextId, cid, "user", req.message, clock db1.tick⟩,
            ⟨db1.nextId + 1, cid, "assistant", "", clock (db1.tick + 1)⟩],
         nextId := db1.nextId + 2, tick := db1.tick + 2 },
       .ok [Event.done (db1.nextId + 1)]) := by
  have h := chat_endpoint_ok clock db db1 req up cid hres
  rw [hfr] at h
  simpa [String.join] using h

/-- C2 witness: the amended behaviour at a concrete all-malformed turn. -/
theorem C2_amended_witness :
    chat_endpoint (fun _ => 0) emptyDB ⟨none, "q", "m"⟩
        ⟨[.malformed, .blank, .noResponseField], .ok⟩ =
      (⟨[⟨0, "q", 0, 0⟩],
        [⟨1, 0, "user", "q", 0⟩, ⟨2, 0, "assistant", "", 0⟩],
        3, 3⟩,
       .ok [Event.done 2]) :=
  C2_amended (fun _ => 0) emptyDB ⟨[⟨0, "q", 0, 0⟩], [], 1, 1⟩
    ⟨none, "q", "m"⟩ ⟨[.malformed, .blank, .noResponseField], .ok⟩ 0 rfl rfl

/-! ## C3 — request validation -/

/-- C3 (counterexample): the claim "a request with an empty message is
rejected with `InvalidRequest` before any side effect" is false of the code.
No validation exists: a request with `message = ""` creates a conversation,
persists an empty user message, consumes the upstream stream, and completes
with `done`. -/
theorem C3_counterexample :
    chat_endpoint (fun _ => 0) emptyDB ⟨none, "", "llama3.2"⟩
        ⟨[.response "x"], .ok⟩ =
      (⟨[⟨0, "", 0, 0⟩],
        [⟨1, 0, "user", "", 0⟩, ⟨2, 0, "assistant", "x", 0⟩],
        3, 3⟩,
       .ok [Event.chunk "x" 0, Event.done 2]) ∧
    (chat_endpoint (fun _ => 0) emptyDB ⟨none, "", "llama3.2"⟩
        ⟨[.response "x"], .ok⟩).1.conversations.length = 1 ∧
    (chat_endpoint (fun _ => 0) emptyDB ⟨none, "", "llama3.2"⟩
        ⟨[.response "x"], .ok⟩).1.messages.length = 2 :=
  ⟨rfl, rfl, rfl⟩

/-- C3 (amended): the endpoint performs no validation at all.  Every request
without a conversation id — whatever its message (the empty string included)
and whatever its model string — runs the full turn: a conversation is
created, the user message is persisted verbatim, the upstream stream is
consumed, and the turn completes with `ok` events. -/
theorem C3_amended (clock : Nat → Nat) (db : DBState) (message model : String)
    (up : UpstreamBehavior) :
    chat_endpoint clock db ⟨none, message, model⟩ up =
      ({ conversations := db.conversations ++
           [⟨db.nextId, titleOf message, clock db.tick, clock db.tick⟩],
         messages := db.messages ++
           [⟨db.nextId + 1, db.nextId, "user", message, clock (db.tick + 1)⟩,
            ⟨db.nextId + 2, db.nextId, "assistant",
              String.join (fragmentsOf up), clock (db.tick + 2)⟩],
         nextId := db.nextId + 3, tick := db.tick + 3 },
       .ok ((fragmentsOf up).map (fun c => Event.chunk c db.nextId) ++
         [Event.done (db.nextId + 2)])) :=
  chat_endpoint_newConv clock db message model up

/-! ## C5 — title derivation -/

/-- C5 (counterexample): the claim "the new conversation's title is derived
from the first line of the message" is false of the code.  For the two-line
message `"a\nb"` the code titles the conversation `"a\nb"` — the whole
message, newline included — while the first line is `"a"`. -/
theorem C5_counterexample :
    (chat_endpoint (fun _ => 0) emptyDB ⟨none, "a\nb", "m"⟩
        ⟨[], .ok⟩).1.conversations = [⟨0, "a\nb", 0, 0⟩] ∧
    titleFromFirstLineSpec "a\nb" = "a" ∧
    ("a\nb" : String) ≠ "a" :=
  ⟨rfl, rfl, by decide⟩

/-- C5 (amended): the title of a conversation created by a turn is the
*whole* message truncated to 50 characters, with `"..."` appended exactly
when the message exceeds 50 characters; no first-line extraction happens. -/
theorem C5_amended (clock : Nat → Nat) (db : DBState) (message model : String)
    (up : UpstreamBehavior) :
    (chat_endpoint clock db ⟨none, message, model⟩ up).1.conversations =
      db.conversations ++
        [⟨db.nextId, titleOf message, clock db.tick, clock db.tick⟩] ∧
    (message.length ≤ 50 → titleOf message = message) ∧
    (message.length > 50 → titleOf message = message.take 50 ++ "...") := by
  refine ⟨?_, ?_, ?_⟩
  · rw [chat_endpoint_newConv clock db message model up]
  · intro h
    simp [titleOf, Nat.not_lt.mpr h]
  · intro h
    simp [titleOf, h]

/-- C5 witness: a 51-character message is truncated with the ellipsis. -/
theorem C5_amended_witness :
    (chat_endpoint (fun _ => 0) emptyDB
        ⟨none, String.mk (List.replicate 51 'a'), "m"⟩ ⟨[], .ok⟩).1.conversations =
      emptyDB.conversations ++
        [⟨emptyDB.nextId, titleOf (String.mk (List.replicate 51 'a')), 0, 0⟩] ∧
    titleOf (String.mk (List.replicate 51 'a')) =
      (String.mk (List.replicate 51 'a')).take 50 ++ "..." :=
  ⟨(C5_amended (fun _ => 0) emptyDB (String.mk (List.replicate 51 'a')) "m"
      ⟨[], .ok⟩).1,
   (C5_amended (fun _ => 0) emptyDB (String.mk (List.replicate 51 'a')) "m"
      ⟨[], .ok⟩).2.2 (by decide)⟩

/-! ## C4 — the successful turn -/

/-- C4 (confirmed): when the upstream stream terminates normally after at
least one fragment, the turn persists exactly one new assistant message —
appended right after the new user message — whose content is the
concatenation of the streamed fragments in order, and the terminal `done`
event names that assistant message's id. -/
theorem C4_success (clock : Nat → Nat) (db db1 : DBState) (req : ChatRequest)
    (up : UpstreamBehavior) (cid : Nat)
    (hres : resolveConversation clock db req = .ok (cid, db1))
    (hend : up.ending = .ok) (_hne : fragmentsOf up ≠ []) :
    chat_endpoint clock db req up =
      ({ conversations := db1.conversations,
         messages := db1.messages ++
           [⟨db1.nextId, cid, "user", req.message, clock db1.tick⟩,
            ⟨db1.nextId + 1, cid, "assistant", String.join (fragmentsOf up),
              clock (db1.tick + 1)⟩],
         nextId := db1.nextId + 2, tick := db1.tick + 2 },
       .ok ((fragmentsOf up).map (fun c => Event.chunk c cid) ++
         [Event.done (db1.nextId + 1)])) ∧
    assistantMessages (chat_endpoint clock db req up).1 cid =
      assistantMessages db1 cid ++
        [⟨db1.nextId + 1, cid, "assistant", String.join (fragmentsOf up),
          clock (db1.tick + 1)⟩] ∧
    fragmentsOf up = up.lines.filterMap lineFragment := by
  have h := chat_endpoint_ok clock db db1 req up cid hres
  refine ⟨h, ?_, ?_⟩
  · rw [h]
    simp [assistantMessages, List.filter_append]
  · simp [fragmentsOf, hend, endingFragments]

/-- C4 witness: the spec's end-to-end scenario — three fragments, one
assistant message equal to their concatenation, `done` naming its id. -/
theorem C4_success_witness :
    chat_endpoint (fun _ => 0) emptyDB ⟨none, "Explain recursion", "m1"⟩
        ⟨[.response "Recursion ", .response "is when ",
          .response "a function calls itself."], .ok⟩ =
      (⟨[⟨0, "Explain recursion", 0, 0⟩],
        [⟨1, 0, "user", "Explain recursion", 0⟩,
         ⟨2, 0, "assistant", "Recursion is when a function calls itself.", 0⟩],
        3, 3⟩,
       .ok [Event.chunk "Recursion " 0, Event.chunk "is when " 0,
            Event.chunk "a function calls itself." 0, Event.done 2]) :=
  (C4_success (fun _ => 0) emptyDB ⟨[⟨0, "Explain recursion", 0, 0⟩], [], 1, 1⟩
    ⟨none, "Explain recursion", "m1"⟩
    ⟨[.response "Recursion ", .response "is when ",
      .response "a function calls itself."], .ok⟩ 0 rfl rfl (by decide)).1

/-! ## C6 — read-back order and ids -/

/-- C6 (counterexample): the claim "messages read back sorted by timestamp
are always in insertion order, even for equal timestamps" is false of the
code.  `ORDER BY timestamp` only constrains the result to be sorted by
timestamp; with two rows sharing a timestamp, the reversed list is an
admissible read-back that differs from insertion order. -/
theorem C6_counterexample :
    readBack dbTie 0 [⟨1, 0, "assistant", "y", 0⟩, ⟨0, 0, "user", "x", 0⟩] ∧
    [⟨1, 0, "assistant", "y", 0⟩, ⟨0, 0, "user", "x", 0⟩] ≠ convMsgs dbTie 0 :=
  ⟨⟨by decide, by decide⟩, by decide⟩

/-- C6 (amended): when the conversation's rows have strictly increasing
timestamps (appends whose clock readings are distinct) and the table's ids
are pairwise distinct, every admissible read-back equals insertion order and
carries pairwise-distinct ids. -/
theorem C6_amended (db : DBState) (cid : Nat) (r : List MessageDB)
    (hstrict : List.Pairwise (fun a b => a.timestamp < b.timestamp)
      (convMsgs db cid))
    (hids : (db.messages.map (fun m => m.id)).Nodup)
    (hrb : readBack db cid r) :
    r = convMsgs db cid ∧ (r.map (fun m => m.id)).Nodup := by
  obtain ⟨hperm, hsorted⟩ := hrb
  have hne : List.Pairwise (fun a b : MessageDB => a.timestamp ≠ b.timestamp)
      (convMsgs db cid) := hstrict.imp (fun h => Nat.ne_of_lt h)
  have hnodup_l : ((convMsgs db cid).map (fun m => m.timestamp)).Nodup :=
    (List.pairwise_map).mpr hne
  have hnodup_r : (r.map (fun m => m.timestamp)).Nodup :=
    ((hperm.map (fun m => m.timestamp)).nodup_iff).mpr hnodup_l
  have hner : List.Pairwise (fun a b : MessageDB => a.timestamp ≠ b.timestamp)
      r := (List.pairwise_map).mp hnodup_r
  have hlt_r : List.Pairwise (fun a b : MessageDB => a.timestamp < b.timestamp)
      r := (hsorted.and hner).imp (fun h => Nat.lt_of_le_of_ne h.1 h.2)
  haveI : IsAntisymm MessageDB (fun a b => a.timestamp < b.timestamp) :=
    ⟨fun _ _ h1 h2 => absurd h2 (Nat.lt_asymm h1)⟩
  have heq : r = convMsgs db cid :=
    List.eq_of_perm_of_sorted hperm hlt_r hstrict
  refine ⟨heq, ?_⟩
  have hsub : (convMsgs db cid).Sublist db.messages :=
    List.filter_sublist _
  have hids_l : ((convMsgs db cid).map (fun m => m.id)).Nodup :=
    List.Nodup.sublist (hsub.map (fun m => m.id)) hids
  exact ((hperm.map (fun m => m.id)).nodup_iff).mpr hids_l

/-- C6 witness: with distinct timestamps the insertion order itself is the
unique admissible read-back, and its ids are distinct. -/
theorem C6_amended_witness :
    convMsgs dbSeq 0 = convMsgs dbSeq 0 ∧
    ((convMsgs dbSeq 0).map (fun m => m.id)).Nodup :=
  C6_amended dbSeq 0 (convMsgs dbSeq 0) (by decide) (by decide)
    ⟨List.Perm.refl _, by decide⟩

/-! ## C7 — context assembly -/

/-- C7 (confirmed): context assembly is a pure function of the message
sequence — identical input yields identical output; the empty history yields
the empty (but valid) prompt; a single message becomes its labelled line; and
extending the history on the right appends that message's labelled line after
a newline, so output order equals message order. -/
theorem C7_assemble :
    buildContext [] = "" ∧
    (∀ ms : List MessageDB, buildContext ms = buildContext ms) ∧
    (∀ m : MessageDB, buildContext [m] = contextLine m) ∧
    (∀ (ms : List MessageDB) (m : MessageDB), ms ≠ [] →
      buildContext (ms ++ [m]) = buildContext ms ++ "\n" ++ contextLine m) := by
  refine ⟨rfl, fun ms => rfl, fun m => rfl, fun ms m h => ?_⟩
  unfold buildContext
  rw [List.map_append]
  exact joinNewline_append_singleton _ _ (by simpa using h)

/-- C7 witness: order-preserving extension at a concrete two-message
history. -/
theorem C7_assemble_witness :
    buildContext ([⟨0, 0, "user", "hi", 0⟩] ++ [⟨1, 0, "assistant", "yo", 1⟩]) =
      buildContext [⟨0, 0, "user", "hi", 0⟩] ++ "\n" ++
        contextLine ⟨1, 0, "assistant", "yo", 1⟩ :=
  C7_assemble.2.2.2 [⟨0, 0, "user", "hi", 0⟩] ⟨1, 0, "assistant", "yo", 1⟩
    (by decide)

/-! ## C8 — communicating the new conversation id -/

/-- C8 (counterexample): the claim "the new conversation's id reaches the
caller even when no `chunk` events occur" is false of the code.  On a
zero-fragment turn the whole event stream is a single `done{message_id}`,
which carries no conversation id at all. -/
theorem C8_counterexample :
    (chat_endpoint (fun _ => 0) emptyDB ⟨none, "start", "m"⟩ ⟨[], .ok⟩).2 =
      .ok [Event.done 2] ∧
    [Event.done 2].filterMap eventConversationId = [] :=
  ⟨rfl, rfl⟩

/-- C8 (amended): the conversation id is carried by `chunk` events only —
one copy per streamed fragment — and by nothing else; with zero fragments the
event stream communicates no conversation id. -/
theorem C8_amended (clock : Nat → Nat) (db db1 : DBState) (req : ChatRequest)
    (up : UpstreamBehavior) (cid : Nat)
    (hres : resolveConversation clock db req = .ok (cid, db1)) :
    (chat_endpoint clock db req up).2 =
      .ok ((fragmentsOf up).map (fun c => Event.chunk c cid) ++
        [Event.done (db1.nextId + 1)]) ∧
    ((fragmentsOf up).map (fun c => Event.chunk c cid) ++
      [Event.done (db1.nextId + 1)]).filterMap eventConversationId =
      (fragmentsOf up).map (fun _ => cid) := by
  refine ⟨?_, filterMap_conversationId_chunks_done _ _ _⟩
  rw [chat_endpoint_ok clock db db1 req up cid hres]

/-- C8 witness: with one fragment the id is carried once, in the `chunk`. -/
theorem C8_amended_witness :
    (chat_endpoint (fun _ => 0) emptyDB ⟨none, "s", "m"⟩
        ⟨[.response "x"], .ok⟩).2 =
      .ok [Event.chunk "x" 0, Event.done 2] ∧
    [Event.chunk "x" 0, Event.done 2].filterMap eventConversationId = [0] :=
  C8_amended (fun _ => 0) emptyDB ⟨[⟨0, "s", 0, 0⟩], [], 1, 1⟩
    ⟨none, "s", "m"⟩ ⟨[.response "x"], .ok⟩ 0 rfl

/-! ## C9 — unknown conversation id -/

/-- C9 (counterexample): the claim "an unknown conversation id fails with
`NotFound`" is half false of the code.  The turn does fail before any side
effect (the store is returned unchanged), but the 404 raised at line 147 is
caught by the blanket `except Exception` at line 206 and re-raised as a 500
internal error, so the caller does not receive a `NotFound` status. -/
theorem C9_counterexample :
    chat_endpoint (fun _ => 0) emptyDB ⟨some 7, "hi", "m"⟩ ⟨[], .ok⟩ =
      (emptyDB, .error notFoundWrapped) ∧
    notFoundWrapped.status = 500 ∧
    notFoundWrapped.status ≠ 404 :=
  ⟨rfl, rfl, by decide⟩

/-- C9 (amended): a request naming a conversation id absent from the store
fails before any side effect — the store is unchanged, no message is
persisted, no upstream fragment is consumed, no event is emitted — but the
failure reaches the caller as a 500 wrapping the 404 detail, not as a 404. -/
theorem C9_amended (clock : Nat → Nat) (db : DBState) (req : ChatRequest)
    (up : UpstreamBehavior) (cid : Nat)
    (hcid : req.conversation_id = some cid)
    (hfind : db.conversations.find? (fun c => c.id == cid) = none) :
    chat_endpoint clock db req up = (db, .error notFoundWrapped) := by
  simp [chat_endpoint, resolveConversation, hcid, hfind]

/-- C9 witness: the unchanged-store failure at a concrete populated store. -/
theorem C9_amended_witness :
    chat_endpoint (fun _ => 0) ⟨[⟨5, "t", 0, 0⟩], [], 6, 0⟩
        ⟨some 9, "hi", "m"⟩ ⟨[], .ok⟩ =
      (⟨[⟨5, "t", 0, 0⟩], [], 6, 0⟩, .error notFoundWrapped) :=
  C9_amended (fun _ => 0) ⟨[⟨5, "t", 0, 0⟩], [], 6, 0⟩
    ⟨some 9, "hi", "m"⟩ ⟨[], .ok⟩ 9 rfl rfl

/-! ## C10 — role labelling in context assembly -/

/-- C10 (confirmed): the context labeller distinguishes only `user` from
everything else — any message whose role is not `"user"`, the `"system"` role
included, is labelled `Assistant`, and `user` messages are labelled `User`. -/
theorem C10_labels :
    (∀ m : MessageDB, m.role ≠ "user" →
      contextLine m = "Assistant: " ++ m.content) ∧
    (∀ (i cid : Nat) (c : String) (t : Nat),
      contextLine ⟨i, cid, "system", c, t⟩ = "Assistant: " ++ c) ∧
    (∀ m : MessageDB, m.role = "user" →
      contextLine m = "User: " ++ m.content) := by
  refine ⟨fun m h => ?_, fun i cid c t => rfl, fun m h => ?_⟩
  · unfold contextLine
    rw [if_neg h]
    exact congrArg (fun s => s ++ m.content) rfl
  · unfold contextLine
    rw [if_pos h]
    exact congrArg (fun s => s ++ m.content) rfl

/-- C10 witness: a `system` message is labelled `Assistant`. -/
theorem C10_labels_witness :
    contextLine ⟨0, 0, "system", "be nice", 0⟩ = "Assistant: " ++ "be nice" :=
  C10_labels.1 ⟨0, 0, "system", "be nice", 0⟩ (by decide)
